import Mathlib

/-!
Shallow embedding of the Healthtrack-Pro nutrition tracker.

The embedding covers the service layer the specification calls the core:
`operations/food_log.py` (`FoodLogOps`), `operations/goal_tracking.py`
(`GoalOps`) and `operations/meal_planning.py` (`MealPlanner.suggest_meal_plan`),
together with the data model of `models/food_entry.py` and `models/goal.py`.

Modelling conventions:
* Calendar dates are modelled by their ordinal number (`date.toordinal`), a
  `Nat`; comparisons between `date` objects agree with comparisons of ordinals.
* The SQLAlchemy session plus database is modelled as an explicit `DB` value
  threaded through every operation.  Assignments to ORM objects take effect on
  this state immediately (as they do on the shared identity-mapped objects of a
  live session); a raised `ValueError` is an `Except.error` result carrying the
  state as already mutated at the moment of the raise — the service functions
  never roll back.
* Autogenerated primary keys are modelled by a `next_entry_id` / `next_goal_id`
  counter; `db.add` appends to the table list.
* `query(...).filter(...).first()` is `List.find?` (first match in insertion
  order); `order_by` is `List.insertionSort` with the corresponding total
  key relation (a sort computable by the kernel).
* The progress percentage — the one Python `float` the claims touch — is
  carried exactly in two-decimal fixed point (the float multiplied by 100):
  `round(x, 2)` is banker's rounding (round half to even) to two decimals,
  which is what Python's `round` computes whenever the intermediate floats
  are exact, and all values reached here are.
* Nullable columns are `Option`; Python truthiness of `goals.daily_calories`
  (false for both `None` and `0`) is modelled explicitly where the source
  relies on it.
* Fields of `FoodEntry` that no modelled operation reads or writes
  (`protein`, `carbs`, `fats`, the timestamps of `BaseModel`) are kept only
  where a claim mentions them; `meal_type` is kept because `update_entry`
  assigns it.
-/

namespace HealthTrack

/-- A calendar date, by its ordinal number (`date.toordinal`). -/
abbrev Date := Nat

/-- `models/food_entry.py`: one logged food item.  `calories` is an `Integer`
column, `date` a `Date` column, `user_id` the owning user's id.  `meal_type`
is the plain attribute that `update_entry` assigns (the model has no such
column, so it lives on the object only). -/
structure FoodEntry where
  id : Nat
  food_name : String
  calories : Int
  date : Date
  user_id : Nat
  meal_type : Option String
deriving DecidableEq, Repr

/-- `models/goal.py`: at most one goal row per user; every numeric column is
nullable, hence `Option`. -/
structure Goal where
  id : Nat
  user_id : Nat
  daily_calories : Option Int
  weekly_calories : Option Int
  protein_goal : Option Rat
  carb_goal : Option Rat
  fat_goal : Option Rat
deriving DecidableEq, Repr

/-- The entity store: the `food_entries` and `goals` tables, with the
generators for their integer primary keys. -/
structure DB where
  entries : List FoodEntry
  goals : List Goal
  next_entry_id : Nat
  next_goal_id : Nat
deriving DecidableEq, Repr

/-! ## Food log service (`operations/food_log.py`, class `FoodLogOps`) -/

/-- `FoodLogOps.log_meal`: rejects negative calories before any mutation,
otherwise inserts one new row with a generated id and returns it.
`meal_date or date.today()` resolves `None` to `today`. -/
def log_meal (db : DB) (user_id : Nat) (food_name : String) (calories : Int)
    (meal_date : Option Date) (today : Date) : Except String FoodEntry × DB :=
  if calories < 0 then
    (.error "Calories cannot be negative", db)
  else
    let entry : FoodEntry :=
      { id := db.next_entry_id, food_name := food_name, calories := calories,
        date := meal_date.getD today, user_id := user_id, meal_type := none }
    (.ok entry,
      { db with entries := db.entries ++ [entry],
                next_entry_id := db.next_entry_id + 1 })

/-- `order_by(FoodEntry.id)`. -/
def idLe (a b : FoodEntry) : Prop := a.id ≤ b.id

instance : DecidableRel idLe :=
  fun a b => inferInstanceAs (Decidable (a.id ≤ b.id))

instance : IsTotal FoodEntry idLe := ⟨fun a b => Nat.le_total a.id b.id⟩

instance : IsTrans FoodEntry idLe := ⟨fun _ _ _ h1 h2 => Nat.le_trans h1 h2⟩

/-- `FoodLogOps.get_daily_logs`: the user's entries on the exact day, ordered
by id. -/
def get_daily_logs (db : DB) (user_id : Nat) (target_date : Date) :
    List FoodEntry :=
  (db.entries.filter
    (fun e => e.user_id == user_id && e.date == target_date)).insertionSort idLe

/-- `order_by(FoodEntry.date, FoodEntry.id)`. -/
def dateIdLe (a b : FoodEntry) : Prop :=
  a.date < b.date ∨ (a.date = b.date ∧ a.id ≤ b.id)

instance : DecidableRel dateIdLe :=
  fun a b =>
    inferInstanceAs (Decidable (a.date < b.date ∨ (a.date = b.date ∧ a.id ≤ b.id)))

instance : IsTotal FoodEntry dateIdLe := by
  constructor
  intro a b
  unfold dateIdLe
  rcases Nat.lt_trichotomy a.date b.date with h | h | h
  · exact Or.inl (Or.inl h)
  · rcases Nat.le_total a.id b.id with h2 | h2
    · exact Or.inl (Or.inr ⟨h, h2⟩)
    · exact Or.inr (Or.inr ⟨h.symm, h2⟩)
  · exact Or.inr (Or.inl h)

instance : IsTrans FoodEntry dateIdLe := by
  constructor
  intro a b c hab hbc
  unfold dateIdLe at *
  rcases hab with h1 | ⟨h1, h1i⟩
  · rcases hbc with h2 | ⟨h2, _⟩
    · exact Or.inl (Nat.lt_trans h1 h2)
    · exact Or.inl (h2 ▸ h1)
  · rcases hbc with h2 | ⟨h2, h2i⟩
    · exact Or.inl (h1 ▸ h2)
    · exact Or.inr ⟨h1.trans h2, Nat.le_trans h1i h2i⟩

/-- `FoodLogOps.get_logs_in_range`: the user's entries with
`start_date <= date <= end_date` (inclusive), ordered by date then id. -/
def get_logs_in_range (db : DB) (user_id : Nat) (start_date end_date : Date) :
    List FoodEntry :=
  (db.entries.filter
    (fun e => e.user_id == user_id && decide (start_date ≤ e.date) &&
      decide (e.date ≤ end_date))).insertionSort dateIdLe

/-- The tail of `FoodLogOps.update_entry` after the calories check: the
optional date and meal-type assignments, in source order. -/
def applyDateMealType (e : FoodEntry) (meal_date : Option Date)
    (meal_type : Option String) : FoodEntry :=
  let e1 := match meal_date with
    | some d => { e with date := d }
    | none => e
  match meal_type with
  | some t => { e1 with meal_type := some t }
  | none => e1

/-- `FoodLogOps.update_entry` on the `food_entries` table: find the first row
matching `(entry_id, user_id)`; if found, assign the supplied fields in source
order — food name first, then calories (raising `ValueError` on a negative
value AFTER the food name has already been assigned to the session object),
then date, then meal type. -/
def updateEntryAux (food : Option String) (calories : Option Int)
    (meal_date : Option Date) (meal_type : Option String)
    (entry_id user_id : Nat) :
    List FoodEntry → Except String (Option FoodEntry) × List FoodEntry
  | [] => (.ok none, [])
  | e :: rest =>
    if e.id == entry_id && e.user_id == user_id then
      let e1 := match food with
        | some f => { e with food_name := f }
        | none => e
      match calories with
      | some c =>
        if c < 0 then
          (.error "Calories cannot be negative", e1 :: rest)
        else
          let e2 := applyDateMealType { e1 with calories := c } meal_date meal_type
          (.ok (some e2), e2 :: rest)
      | none =>
        let e2 := applyDateMealType e1 meal_date meal_type
        (.ok (some e2), e2 :: rest)
    else
      let r := updateEntryAux food calories meal_date meal_type entry_id user_id rest
      (r.1, e :: r.2)

/-- `FoodLogOps.update_entry`, threading the store. -/
def update_entry (db : DB) (entry_id user_id : Nat) (food : Option String)
    (calories : Option Int) (meal_date : Option Date)
    (meal_type : Option String) : Except String (Option FoodEntry) × DB :=
  let r := updateEntryAux food calories meal_date meal_type entry_id user_id db.entries
  (r.1, { db with entries := r.2 })

/-- `FoodLogOps.delete_entry` on the table: delete the first row matching
`(entry_id, user_id)`; report whether one was found. -/
def deleteEntryAux (entry_id user_id : Nat) :
    List FoodEntry → Bool × List FoodEntry
  | [] => (false, [])
  | e :: rest =>
    if e.id == entry_id && e.user_id == user_id then (true, rest)
    else
      let r := deleteEntryAux entry_id user_id rest
      (r.1, e :: r.2)

/-- `FoodLogOps.delete_entry`, threading the store. -/
def delete_entry (db : DB) (entry_id user_id : Nat) : Bool × DB :=
  let r := deleteEntryAux entry_id user_id db.entries
  (r.1, { db with entries := r.2 })

/-- `order_by(FoodEntry.date.desc(), FoodEntry.id.desc())`. -/
def recentLe (a b : FoodEntry) : Prop :=
  b.date < a.date ∨ (b.date = a.date ∧ b.id ≤ a.id)

instance : DecidableRel recentLe :=
  fun a b =>
    inferInstanceAs (Decidable (b.date < a.date ∨ (b.date = a.date ∧ b.id ≤ a.id)))

instance : IsTotal FoodEntry recentLe := by
  constructor
  intro a b
  rcases IsTotal.total (r := dateIdLe) a b with h | h
  · exact Or.inr h
  · exact Or.inl h

instance : IsTrans FoodEntry recentLe := by
  constructor
  intro a b c hab hbc
  exact IsTrans.trans (r := dateIdLe) c b a hbc hab

/-- `FoodLogOps.get_recent_logs`: the user's entries, newest first (date
descending, id descending), truncated to `limit`. -/
def get_recent_logs (db : DB) (user_id : Nat) (limit : Nat) : List FoodEntry :=
  ((db.entries.filter (fun e => e.user_id == user_id)).insertionSort recentLe).take
    limit

/-! ## Goal service (`operations/goal_tracking.py`, class `GoalOps`) -/

/-- `GoalOps.get_goals`: the first `goals` row of the user, or `none`. -/
def get_goals (db : DB) (user_id : Nat) : Option Goal :=
  db.goals.find? (fun g => g.user_id == user_id)

/-- `GoalOps.set_goals` on the `goals` table: update the first row of the
user in place, overwriting `daily_calories` and `weekly_calories` and touching
nothing else; `none` when the user has no row. -/
def setGoalsAux (user_id : Nat) (daily weekly : Int) :
    List Goal → Option (Goal × List Goal)
  | [] => none
  | g :: rest =>
    if g.user_id == user_id then
      let g1 := { g with daily_calories := some daily,
                         weekly_calories := some weekly }
      some (g1, g1 :: rest)
    else
      match setGoalsAux user_id daily weekly rest with
      | some (g1, rest1) => some (g1, g :: rest1)
      | none => none

/-- `GoalOps.set_goals`: create the user's `Goal` row when absent (all other
columns NULL), else update it in place; returns the resulting row. -/
def set_goals (db : DB) (user_id : Nat) (daily weekly : Int) : Goal × DB :=
  match setGoalsAux user_id daily weekly db.goals with
  | some (g1, goals1) => (g1, { db with goals := goals1 })
  | none =>
    let g : Goal :=
      { id := db.next_goal_id, user_id := user_id,
        daily_calories := some daily, weekly_calories := some weekly,
        protein_goal := none, carb_goal := none, fat_goal := none }
    (g, { db with goals := db.goals ++ [g],
                  next_goal_id := db.next_goal_id + 1 })

/-- Banker's rounding (round half to even) of the exact quotient `n / d`,
for `d > 0`: what Python's `round` computes when the floats involved are
exact.  Uses Euclidean division, whose quotient is `⌊n / d⌋` for `d > 0`. -/
def roundHalfEvenDiv (n d : Int) : Int :=
  let q := n.ediv d
  let r := n.emod d
  if 2 * r < d then q
  else if d < 2 * r then q + 1
  else if q % 2 = 0 then q else q + 1

/-- `round((total / daily) * 100, 2)` in two-decimal fixed point: the Python
value multiplied by 100.  `round(x, 2)` yields a value with exactly two
decimals, so scaling by 100 represents it exactly as an integer:
`round(n / d * 100, 2) * 100 = roundHalfEven(n * 10000 / d)`. -/
def percentage100 (total daily : Int) : Int :=
  roundHalfEvenDiv (total * 10000) daily

/-- The dictionary `GoalOps.get_progress` returns.  `progress_percentage` is
carried in two-decimal fixed point (the Python float multiplied by 100), so
that `min(100, ...)` becomes `min 10000 ...`. -/
structure DailyProgress where
  date : Date
  total_calories : Int
  daily_goal : Option Int
  remaining : Option Int
  progress_percentage : Option Int
deriving DecidableEq, Repr

/-- `GoalOps.get_progress`: sum the day's calories, then fill `remaining`
and `progress_percentage` only when `goals` exists and `goals.daily_calories`
is truthy — i.e. neither `None` nor `0`; the percentage additionally requires
`daily_calories > 0`. -/
def get_progress (db : DB) (user_id : Nat) (target_date : Date) :
    DailyProgress :=
  let goals := get_goals db user_id
  let entries := get_daily_logs db user_id target_date
  let total_calories := (entries.map (fun e => e.calories)).sum
  let base : DailyProgress :=
    { date := target_date, total_calories := total_calories,
      daily_goal := match goals with
        | some g => g.daily_calories
        | none => none,
      remaining := none, progress_percentage := none }
  match goals with
  | some g =>
    match g.daily_calories with
    | some dc =>
      if dc = 0 then base
      else
        { base with
          remaining := some (max 0 (dc - total_calories)),
          progress_percentage :=
            if dc > 0 then
              some (min 10000 (percentage100 total_calories dc))
            else none }
    | none => base
  | none => base

/-! ## Meal planning service (`operations/meal_planning.py`, class
`MealPlanner`) -/

/-- One value of the suggestions dictionary of `suggest_meal_plan`. -/
structure MealSuggestion where
  suggestion : String
  estimated_calories : Int
deriving DecidableEq, Repr

/-- The suggestions dictionary of `suggest_meal_plan` (fixed keys
breakfast / lunch / dinner / snack). -/
structure MealPlanSuggestions where
  breakfast : MealSuggestion
  lunch : MealSuggestion
  dinner : MealSuggestion
  snack : MealSuggestion
deriving DecidableEq, Repr

/-- `int(x * 0.8)`.  Every estimate the table can produce (150, 200, 300,
350, 400, 450, 550) is a multiple of 50, so `x * 0.8` is an integer whose
double-precision product is exact, and truncation equals exact division. -/
def scale80 (x : Int) : Int := x * 4 / 5

/-- `MealPlanner.suggest_meal_plan`: a fixed threshold table on
`remaining_calories = calorie_target - existing_calories`; if the sum of the
four estimates exceeds the remaining budget, every estimate is scaled by 0.8.
`self.db`, `user_id` and `target_date` are parameters of the source method
but are never read. -/
def suggest_meal_plan (db : DB) (user_id : Nat) (target_date : Date)
    (calorie_target : Int) (existing_calories : Int) : MealPlanSuggestions :=
  let remaining_calories := calorie_target - existing_calories
  let s : MealPlanSuggestions :=
    { breakfast :=
        { suggestion := "Greek yogurt with berries and granola",
          estimated_calories := if remaining_calories ≥ 1600 then 300 else 200 },
      lunch :=
        { suggestion := "Grilled chicken salad with olive oil dressing",
          estimated_calories := if remaining_calories ≥ 1200 then 450 else 350 },
      dinner :=
        { suggestion := "Salmon with quinoa and steamed vegetables",
          estimated_calories := if remaining_calories ≥ 700 then 550 else 400 },
      snack :=
        { suggestion := if remaining_calories > 200 then "Handful of almonds"
            else "Apple slices",
          estimated_calories := 150 } }
  let total_suggested := s.breakfast.estimated_calories +
    s.lunch.estimated_calories + s.dinner.estimated_calories +
    s.snack.estimated_calories
  if total_suggested > remaining_calories then
    { breakfast := { s.breakfast with
        estimated_calories := scale80 s.breakfast.estimated_calories },
      lunch := { s.lunch with
        estimated_calories := scale80 s.lunch.estimated_calories },
      dinner := { s.dinner with
        estimated_calories := scale80 s.dinner.estimated_calories },
      snack := { s.snack with
        estimated_calories := scale80 s.snack.estimated_calories } }
  else s

/-! ## Spec-side definitions, for refinement-style comparisons -/

/-- The suggestion table as the specification words it: a function of the
remaining budget alone — breakfast 300/200 at ≥ 1600 remaining, lunch
450/350 at ≥ 1200, dinner 550/400 at ≥ 700, snack always 150 with the label
chosen by `remaining > 200`, and every estimate scaled by the flat factor 0.8
(`int(x * 0.8)`, which is exact division for the table's multiples of 50)
when the four estimates sum to more than the remaining budget. -/
def mealPlanSpecTable (remaining : Int) : MealPlanSuggestions :=
  let b : Int := if remaining ≥ 1600 then 300 else 200
  let l : Int := if remaining ≥ 1200 then 450 else 350
  let d : Int := if remaining ≥ 700 then 550 else 400
  let sn : Int := 150
  let scaled : Int → Int := fun x =>
    if b + l + d + sn > remaining then x * 4 / 5 else x
  { breakfast :=
      { suggestion := "Greek yogurt with berries and granola",
        estimated_calories := scaled b },
    lunch :=
      { suggestion := "Grilled chicken salad with olive oil dressing",
        estimated_calories := scaled l },
    dinner :=
      { suggestion := "Salmon with quinoa and steamed vegetables",
        estimated_calories := scaled d },
    snack :=
      { suggestion :=
          if remaining > 200 then "Handful of almonds" else "Apple slices",
        estimated_calories := scaled sn } }

/-- "Only the supplied fields are overwritten": the entry with each supplied
field replacing the stored one and every omitted field kept. -/
def updatedEntry (e : FoodEntry) (food : Option String) (calories : Option Int)
    (meal_date : Option Date) (meal_type : Option String) : FoodEntry :=
  { e with
    food_name := food.getD e.food_name,
    calories := calories.getD e.calories,
    date := meal_date.getD e.date,
    meal_type := match meal_type with
      | some t => some t
      | none => e.meal_type }

/-! ## Concrete stores used as witnesses and counterexamples -/

/-- The three entries of the specification's worked example
(`{200, 300, 1600}` on one date). -/
def entry200 : FoodEntry :=
  { id := 1, food_name := "Oatmeal", calories := 200, date := 5, user_id := 1,
    meal_type := none }

def entry300 : FoodEntry :=
  { id := 2, food_name := "Sandwich", calories := 300, date := 5, user_id := 1,
    meal_type := none }

def entry1600 : FoodEntry :=
  { id := 3, food_name := "Feast", calories := 1600, date := 5, user_id := 1,
    meal_type := none }

/-- A goal row with `daily_calories = 2000`. -/
def goal2000 : Goal :=
  { id := 1, user_id := 1, daily_calories := some 2000,
    weekly_calories := some 14000, protein_goal := none, carb_goal := none,
    fat_goal := none }

/-- A goal row whose `daily_calories` is set to `0` — stored, but falsy in
Python. -/
def goal0 : Goal :=
  { id := 1, user_id := 1, daily_calories := some 0, weekly_calories := none,
    protein_goal := none, carb_goal := none, fat_goal := none }

/-- The specification's worked example: goal 2000, entries 200/300/1600 on
date 5. -/
def dbExample : DB :=
  { entries := [entry200, entry300, entry1600], goals := [goal2000],
    next_entry_id := 4, next_goal_id := 2 }

/-- A store whose only goal has `daily_calories = 0`. -/
def dbZeroGoal : DB :=
  { entries := [], goals := [goal0], next_entry_id := 1, next_goal_id := 2 }

/-- A store with a 2000-calorie daily goal and no entries at all. -/
def dbNoEntries : DB :=
  { entries := [], goals := [goal2000], next_entry_id := 1, next_goal_id := 2 }

/-- One entry, one user, no goals. -/
def entryApple : FoodEntry :=
  { id := 1, food_name := "Apple", calories := 95, date := 5, user_id := 1,
    meal_type := none }

def dbApple : DB :=
  { entries := [entryApple], goals := [], next_entry_id := 2, next_goal_id := 1 }

/-- Entries for the recent-logs witness: ids 2 and 3 share a date, id 4
belongs to another user. -/
def entryR1 : FoodEntry :=
  { id := 1, food_name := "Old", calories := 100, date := 10, user_id := 1,
    meal_type := none }

def entryR2 : FoodEntry :=
  { id := 2, food_name := "NewA", calories := 200, date := 12, user_id := 1,
    meal_type := none }

def entryR3 : FoodEntry :=
  { id := 3, food_name := "NewB", calories := 300, date := 12, user_id := 1,
    meal_type := none }

def entryR4 : FoodEntry :=
  { id := 4, food_name := "Other", calories := 400, date := 13, user_id := 2,
    meal_type := none }

def dbRecent : DB :=
  { entries := [entryR1, entryR2, entryR3, entryR4], goals := [],
    next_entry_id := 5, next_goal_id := 1 }

/-! ## Helper lemmas -/

/-- The suggestion builder computes a function of the remaining budget
alone. -/
theorem suggest_meal_plan_eq_table (db : DB) (user_id : Nat)
    (target_date : Date) (calorie_target existing_calories : Int) :
    suggest_meal_plan db user_id target_date calorie_target existing_calories
      = mealPlanSpecTable (calorie_target - existing_calories) := by
  unfold suggest_meal_plan mealPlanSpecTable
  by_cases h1 : calorie_target - existing_calories ≥ 1600 <;>
    by_cases h2 : calorie_target - existing_calories ≥ 1200 <;>
      by_cases h3 : calorie_target - existing_calories ≥ 700 <;>
        by_cases h4 : calorie_target - existing_calories > 200 <;>
          simp only [h1, h2, h3, h4, ite_true, ite_false] <;>
          split <;>
          rename_i h5 <;>
          first
            | simp [h5, scale80]
            | rfl

/-- `find?` skips a prefix in which nothing matches. -/
theorem find?_append_of_none {α : Type} (p : α → Bool) (l1 l2 : List α)
    (h : l1.find? p = none) : (l1 ++ l2).find? p = l2.find? p := by
  induction l1 with
  | nil => rfl
  | cons x rest ih =>
    have hx : p x = false := by
      cases hpx : p x
      · rfl
      · rw [List.find?_cons_of_pos _ hpx] at h
        exact absurd h (by simp)
    rw [List.cons_append, List.find?_cons_of_neg _ (by simp [hx])]
    apply ih
    rwa [List.find?_cons_of_neg _ (by simp [hx])] at h

/-- What `setGoalsAux` does to the first matching row, phrased through
`find?` (the model of `.first()`). -/
theorem setGoalsAux_spec (user_id : Nat) (daily weekly : Int)
    (l : List Goal) :
    (∀ g1 l1, setGoalsAux user_id daily weekly l = some (g1, l1) →
      ∃ g0, l.find? (fun g => g.user_id == user_id) = some g0 ∧
        g1 = { g0 with daily_calories := some daily,
                       weekly_calories := some weekly } ∧
        l1.find? (fun g => g.user_id == user_id) = some g1) ∧
    (setGoalsAux user_id daily weekly l = none →
      l.find? (fun g => g.user_id == user_id) = none) := by
  induction l with
  | nil =>
    constructor
    · intro g1 l1 h
      simp [setGoalsAux] at h
    · intro _
      rfl
  | cons g rest ih =>
    by_cases hg : g.user_id = user_id
    · have hcond : (g.user_id == user_id) = true := by simp [hg]
      constructor
      · intro g1 l1 h
        simp only [setGoalsAux, hcond, if_true] at h
        simp only [Option.some.injEq, Prod.mk.injEq] at h
        obtain ⟨hg1, hl1⟩ := h
        refine ⟨g, ?_, hg1.symm, ?_⟩
        · exact List.find?_cons_of_pos _ hcond
        · rw [← hl1, List.find?_cons_of_pos _ (by simpa using hcond), hg1]
      · intro h
        simp [setGoalsAux, hcond] at h
    · have hcond : (g.user_id == user_id) = false := by simp [hg]
      constructor
      · intro g1 l1 h
        simp only [setGoalsAux, hcond, Bool.false_eq_true, if_false] at h
        cases haux : setGoalsAux user_id daily weekly rest with
        | none => rw [haux] at h; simp at h
        | some p =>
          obtain ⟨g2, rest2⟩ := p
          rw [haux] at h
          simp only [Option.some.injEq, Prod.mk.injEq] at h
          obtain ⟨hg2, hl1⟩ := h
          obtain ⟨g0, hfind, hup, hfind2⟩ := ih.1 g2 rest2 haux
          refine ⟨g0, ?_, hg2 ▸ hup, ?_⟩
          · rw [List.find?_cons_of_neg _ (by simp [hg]), hfind]
          · rw [← hl1, List.find?_cons_of_neg _ (by simp [hg]), hfind2, hg2]
      · intro h
        simp only [setGoalsAux, hcond, Bool.false_eq_true, if_false] at h
        cases haux : setGoalsAux user_id daily weekly rest with
        | none =>
          rw [List.find?_cons_of_neg _ (by simp [hg])]
          exact ih.2 haux
        | some p => rw [haux] at h; simp at h

/-- The `total_calories` field of `get_progress` is the calorie sum of the
user's entries on the day (sorting is a permutation, so the sum is the
filter's sum). -/
theorem get_progress_total (db : DB) (user_id : Nat) (d : Date) :
    (get_progress db user_id d).total_calories
      = ((db.entries.filter
          (fun e => e.user_id == user_id && e.date == d)).map
            (fun e => e.calories)).sum := by
  have hsum : ((get_daily_logs db user_id d).map (fun e => e.calories)).sum
      = ((db.entries.filter
          (fun e => e.user_id == user_id && e.date == d)).map
            (fun e => e.calories)).sum :=
    ((List.perm_insertionSort idLe _).map _).sum_eq
  simp only [get_progress]
  cases hgl : get_goals db user_id with
  | none => simpa using hsum
  | some g =>
    cases hd : g.daily_calories with
    | none => simp only [hd]; simpa using hsum
    | some dc =>
      simp only [hd]
      by_cases h0 : dc = 0
      · simpa [h0] using hsum
      · simpa [h0] using hsum

/-- When no goal row exists, or its `daily_calories` is NULL, `get_progress`
leaves goal, remaining and percentage absent. -/
theorem get_progress_absent (db : DB) (user_id : Nat) (d : Date) :
    (get_goals db user_id = none →
      (get_progress db user_id d).daily_goal = none ∧
      (get_progress db user_id d).remaining = none ∧
      (get_progress db user_id d).progress_percentage = none) ∧
    (∀ g, get_goals db user_id = some g → g.daily_calories = none →
      (get_progress db user_id d).daily_goal = none ∧
      (get_progress db user_id d).remaining = none ∧
      (get_progress db user_id d).progress_percentage = none) := by
  constructor
  · intro hgl
    simp [get_progress, hgl]
  · intro g hgl hd
    simp [get_progress, hgl, hd]

/-- `deleteEntryAux` reports success exactly when a matching row exists. -/
theorem deleteEntryAux_fst_iff (entry_id user_id : Nat) (l : List FoodEntry) :
    (deleteEntryAux entry_id user_id l).1 = true ↔
      ∃ e ∈ l, e.id = entry_id ∧ e.user_id = user_id := by
  induction l with
  | nil => simp [deleteEntryAux]
  | cons e rest ih =>
    cases hcond : (e.id == entry_id && e.user_id == user_id) with
    | true =>
      have hmatch : e.id = entry_id ∧ e.user_id = user_id := by
        simpa [Bool.and_eq_true, beq_iff_eq] using hcond
      simp only [deleteEntryAux, hcond, if_true]
      exact iff_of_true trivial ⟨e, List.mem_cons_self e rest, hmatch⟩
    | false =>
      simp only [deleteEntryAux, hcond, Bool.false_eq_true, if_false]
      rw [ih]
      constructor
      · rintro ⟨x, hx, hm⟩
        exact ⟨x, List.mem_cons_of_mem _ hx, hm⟩
      · rintro ⟨x, hx, hm⟩
        rcases List.mem_cons.mp hx with rfl | hx2
        · exact absurd (by simp [hm.1, hm.2] : (x.id == entry_id && x.user_id == user_id) = true)
            (by simp [hcond])
        · exact ⟨x, hx2, hm⟩

/-- A failed `deleteEntryAux` leaves the table unchanged. -/
theorem deleteEntryAux_snd_of_false (entry_id user_id : Nat)
    (l : List FoodEntry) (h : (deleteEntryAux entry_id user_id l).1 = false) :
    (deleteEntryAux entry_id user_id l).2 = l := by
  induction l with
  | nil => rfl
  | cons e rest ih =>
    cases hcond : (e.id == entry_id && e.user_id == user_id) with
    | true =>
      rw [deleteEntryAux] at h
      simp only [hcond, if_true] at h
      exact absurd h (by simp)
    | false =>
      rw [deleteEntryAux] at h ⊢
      simp only [hcond, Bool.false_eq_true, if_false] at h ⊢
      rw [ih h]

/-- With distinct ids, no row matching `(entry_id, user_id)` survives a
`deleteEntryAux` call. -/
theorem deleteEntryAux_not_mem (entry_id user_id : Nat) (l : List FoodEntry)
    (hids : l.Pairwise (fun a b => a.id ≠ b.id)) :
    ∀ e ∈ (deleteEntryAux entry_id user_id l).2,
      ¬(e.id = entry_id ∧ e.user_id = user_id) := by
  induction l with
  | nil =>
    intro e he
    simp [deleteEntryAux] at he
  | cons x rest ih =>
    obtain ⟨hx, hrest⟩ := List.pairwise_cons.mp hids
    cases hcond : (x.id == entry_id && x.user_id == user_id) with
    | true =>
      have hxm : x.id = entry_id ∧ x.user_id = user_id := by
        simpa [Bool.and_eq_true, beq_iff_eq] using hcond
      intro e he
      simp only [deleteEntryAux, hcond, if_true] at he
      rintro ⟨he1, _⟩
      exact hx e he (by rw [hxm.1, he1])
    | false =>
      intro e he
      simp only [deleteEntryAux, hcond, Bool.false_eq_true, if_false] at he
      rcases List.mem_cons.mp he with rfl | he2
      · rintro ⟨h1, h2⟩
        exact absurd (by simp [h1, h2] : (e.id == entry_id && e.user_id == user_id) = true)
          (by simp [hcond])
      · exact ih hrest e he2

/-- `updateEntryAux` on a table without a matching row: not found, nothing
changed. -/
theorem updateEntryAux_no_match (food : Option String) (calories : Option Int)
    (meal_date : Option Date) (meal_type : Option String)
    (entry_id user_id : Nat) (l : List FoodEntry)
    (h : ∀ x ∈ l, ¬(x.id = entry_id ∧ x.user_id = user_id)) :
    updateEntryAux food calories meal_date meal_type entry_id user_id l
      = (.ok none, l) := by
  induction l with
  | nil => rfl
  | cons x rest ih =>
    have hx := h x (List.mem_cons_self x rest)
    have hcond : (x.id == entry_id && x.user_id == user_id) = false := by
      rw [Bool.eq_false_iff]
      intro hc
      exact hx (by simpa [Bool.and_eq_true, beq_iff_eq] using hc)
    simp only [updateEntryAux, hcond, Bool.false_eq_true, if_false]
    rw [ih (fun x hx2 => h x (List.mem_cons_of_mem _ hx2))]

/-- The field assignments of `update_entry` in the non-raising path compose
to `updatedEntry`: only supplied fields are overwritten. -/
theorem applyDateMealType_some (e : FoodEntry) (food : Option String)
    (c : Int) (meal_date : Option Date) (meal_type : Option String) :
    applyDateMealType
      { (match food with
          | some f => { e with food_name := f }
          | none => e) with calories := c } meal_date meal_type
      = updatedEntry e food (some c) meal_date meal_type := by
  cases food <;> cases meal_date <;> cases meal_type <;> rfl

/-- As `applyDateMealType_some`, with no calorie field supplied. -/
theorem applyDateMealType_none (e : FoodEntry) (food : Option String)
    (meal_date : Option Date) (meal_type : Option String) :
    applyDateMealType
      (match food with
        | some f => { e with food_name := f }
        | none => e) meal_date meal_type
      = updatedEntry e food none meal_date meal_type := by
  cases food <;> cases meal_date <;> cases meal_type <;> rfl

/-- `updateEntryAux` on the first matching row with a negative calorie
value: the `ValueError` is raised after the food name has already been
assigned, so the error result carries the partially mutated row. -/
theorem updateEntryAux_found_error (food : Option String) (c : Int)
    (meal_date : Option Date) (meal_type : Option String)
    (entry_id user_id : Nat) (l1 : List FoodEntry) (e : FoodEntry)
    (l2 : List FoodEntry)
    (h1 : ∀ x ∈ l1, ¬(x.id = entry_id ∧ x.user_id = user_id))
    (he : e.id = entry_id) (hu : e.user_id = user_id) (hc : c < 0) :
    updateEntryAux food (some c) meal_date meal_type entry_id user_id
        (l1 ++ e :: l2)
      = (.error "Calories cannot be negative",
          l1 ++ { e with food_name := food.getD e.food_name } :: l2) := by
  revert h1
  induction l1 with
  | nil =>
    intro _
    have hcond : (e.id == entry_id && e.user_id == user_id) = true := by
      simp [he, hu]
    rw [List.nil_append]
    simp only [updateEntryAux, hcond, if_true]
    rw [if_pos hc]
    cases food <;> rfl
  | cons x rest ih =>
    intro h1
    have hx := h1 x (List.mem_cons_self x rest)
    have hcond : (x.id == entry_id && x.user_id == user_id) = false := by
      rw [Bool.eq_false_iff]
      intro hc2
      exact hx (by simpa [Bool.and_eq_true, beq_iff_eq] using hc2)
    rw [List.cons_append]
    simp only [updateEntryAux, hcond, Bool.false_eq_true, if_false]
    rw [ih (fun x hx2 => h1 x (List.mem_cons_of_mem _ hx2))]
    rfl

/-- `updateEntryAux` on the first matching row with no calorie value or a
non-negative one: the supplied fields — and only they — are overwritten. -/
theorem updateEntryAux_found_ok (food : Option String) (calories : Option Int)
    (meal_date : Option Date) (meal_type : Option String)
    (entry_id user_id : Nat) (l1 : List FoodEntry) (e : FoodEntry)
    (l2 : List FoodEntry)
    (h1 : ∀ x ∈ l1, ¬(x.id = entry_id ∧ x.user_id = user_id))
    (he : e.id = entry_id) (hu : e.user_id = user_id)
    (hok : calories = none ∨ ∃ c, calories = some c ∧ 0 ≤ c) :
    updateEntryAux food calories meal_date meal_type entry_id user_id
        (l1 ++ e :: l2)
      = (.ok (some (updatedEntry e food calories meal_date meal_type)),
          l1 ++ updatedEntry e food calories meal_date meal_type :: l2) := by
  revert h1
  induction l1 with
  | nil =>
    intro _
    have hcond : (e.id == entry_id && e.user_id == user_id) = true := by
      simp [he, hu]
    rcases hok with hnone | ⟨c, hc, hpos⟩
    · subst hnone
      rw [List.nil_append]
      simp only [updateEntryAux, hcond, if_true]
      rw [applyDateMealType_none]
      rfl
    · subst hc
      rw [List.nil_append]
      simp only [updateEntryAux, hcond, if_true]
      rw [if_neg (Int.not_lt.mpr hpos)]
      rw [applyDateMealType_some]
      rfl
  | cons x rest ih =>
    intro h1
    have hx := h1 x (List.mem_cons_self x rest)
    have hcond : (x.id == entry_id && x.user_id == user_id) = false := by
      rw [Bool.eq_false_iff]
      intro hc2
      exact hx (by simpa [Bool.and_eq_true, beq_iff_eq] using hc2)
    rw [List.cons_append]
    simp only [updateEntryAux, hcond, Bool.false_eq_true, if_false]
    rw [ih (fun x hx2 => h1 x (List.mem_cons_of_mem _ hx2))]
    rfl

/-! ## Claims -/

/-- Claim C8 (confirmed): `suggest_meal_plan` returns, for
`remaining = calorie_target - existing_calories`, estimated calories
breakfast 300 if `remaining ≥ 1600` else 200, lunch 450 if `remaining ≥ 1200`
else 350, dinner 550 if `remaining ≥ 700` else 400, snack always 150 with the
label chosen by `remaining > 200`; and when the four estimates sum to more
than `remaining`, every estimate is scaled down by the flat factor 0.8 —
exactly the table `mealPlanSpecTable` transcribed from those words. -/
theorem c8_suggest_meal_plan_table (db : DB) (user_id : Nat)
    (target_date : Date) (calorie_target existing_calories : Int) :
    suggest_meal_plan db user_id target_date calorie_target existing_calories
      = mealPlanSpecTable (calorie_target - existing_calories) :=
  suggest_meal_plan_eq_table db user_id target_date calorie_target
    existing_calories

/-- Claim C9 (confirmed): two `suggest_meal_plan` calls whose
`calorie_target - existing_calories` agree return identical suggestion
dictionaries, whatever the store, user and date; in particular calls that
agree on `calorie_target` and `existing_calories` themselves do. -/
theorem c9_suggest_meal_plan_noninterference (db1 db2 : DB) (u1 u2 : Nat)
    (d1 d2 : Date) (t1 e1 t2 e2 : Int) (h : t1 - e1 = t2 - e2) :
    suggest_meal_plan db1 u1 d1 t1 e1 = suggest_meal_plan db2 u2 d2 t2 e2 := by
  rw [suggest_meal_plan_eq_table, suggest_meal_plan_eq_table, h]

/-- Witness for C9: a 2000/500 call and a 1600/100 call (both 1500
remaining) on different stores, users and dates coincide. -/
theorem c9_suggest_meal_plan_noninterference_witness :
    (2000 : Int) - 500 = 1600 - 100 ∧
    suggest_meal_plan dbExample 1 5 2000 500
      = suggest_meal_plan dbRecent 2 13 1600 100 :=
  ⟨by decide,
    c9_suggest_meal_plan_noninterference dbExample dbRecent 1 2 5 13
      2000 500 1600 100 (by decide)⟩

/-- Claim C10 (confirmed): a reversed range — `end_date < start_date` —
makes the inclusive filter of `get_logs_in_range` unsatisfiable, so the
result is always the empty list. -/
theorem c10_reversed_range_empty (db : DB) (user_id : Nat)
    (start_date end_date : Date) (h : end_date < start_date) :
    get_logs_in_range db user_id start_date end_date = [] := by
  unfold get_logs_in_range
  have hf : db.entries.filter
      (fun e => e.user_id == user_id && decide (start_date ≤ e.date) &&
        decide (e.date ≤ end_date)) = [] := by
    rw [List.filter_eq_nil]
    intro e _
    simp only [Bool.and_eq_true, decide_eq_true_eq, not_and]
    rintro ⟨-, h1⟩ h2
    exact absurd h (Nat.not_lt.mpr (Nat.le_trans h1 h2))
  rw [hf]
  rfl

/-- Witness for C10: a store with entries on dates 5, 6, 6 and 13, queried
with the reversed range `[10, 5]`, returns nothing. -/
theorem c10_reversed_range_empty_witness :
    (5 : Date) < 10 ∧ get_logs_in_range dbRecent 1 10 5 = [] :=
  ⟨by decide, c10_reversed_range_empty dbRecent 1 10 5 (by decide)⟩

/-- Claim C4 (confirmed): `log_meal` rejects every negative calorie count
with a validation error, leaving the store untouched; for every non-negative
count it appends exactly one new row carrying the generated id and returns
it. -/
theorem c4_log_meal_validation (db : DB) (user_id : Nat) (food_name : String)
    (calories : Int) (meal_date : Option Date) (today : Date) :
    (calories < 0 →
      log_meal db user_id food_name calories meal_date today
        = (.error "Calories cannot be negative", db)) ∧
    (0 ≤ calories →
      ∃ e, log_meal db user_id food_name calories meal_date today
            = (.ok e, { db with
                          entries := db.entries ++ [e],
                          next_entry_id := db.next_entry_id + 1 }) ∧
          e.id = db.next_entry_id ∧ e.food_name = food_name ∧
          e.calories = calories ∧ e.user_id = user_id ∧
          e.date = meal_date.getD today) := by
  constructor
  · intro hc
    unfold log_meal
    rw [if_pos hc]
  · intro hc
    unfold log_meal
    rw [if_neg (Int.not_lt.mpr hc)]
    exact ⟨_, rfl, rfl, rfl, rfl, rfl, rfl⟩

/-- Witness for C4: on the one-entry store, `log_meal` with `-1` calories
fails and changes nothing, and with `95` calories appends row id 2. -/
theorem c4_log_meal_validation_witness :
    ((-1 : Int) < 0 ∧
      log_meal dbApple 1 "Soda" (-1) none 9
        = (.error "Calories cannot be negative", dbApple)) ∧
    ((0 : Int) ≤ 95 ∧
      ∃ e, log_meal dbApple 1 "Banana" 95 none 9
            = (.ok e, { dbApple with
                          entries := dbApple.entries ++ [e],
                          next_entry_id := dbApple.next_entry_id + 1 }) ∧
          e.id = dbApple.next_entry_id ∧ e.food_name = "Banana" ∧
          e.calories = 95 ∧ e.user_id = 1 ∧ e.date = (none : Option Date).getD 9) :=
  ⟨⟨by decide, (c4_log_meal_validation dbApple 1 "Soda" (-1) none 9).1 (by decide)⟩,
    ⟨by decide, (c4_log_meal_validation dbApple 1 "Banana" 95 none 9).2 (by decide)⟩⟩

/-- Claim C2 (confirmed): after `set_goals`, `get_goals` returns exactly the
goal just stored — the row is created when absent and updated in place
otherwise, `daily_calories` and `weekly_calories` are overwritten
unconditionally, and the macro-goal columns keep whatever value (or NULL)
they had before the call.  Since the source's `set_goals` takes no macro
parameters, every call omits them, and the claim's retention property is
exactly this preservation; applied to the last call of any sequence it gives
the round-trip property. -/
theorem c2_set_goals_get_goals_roundtrip (db : DB) (user_id : Nat)
    (daily weekly : Int) :
    get_goals (set_goals db user_id daily weekly).2 user_id
      = some (set_goals db user_id daily weekly).1 ∧
    (set_goals db user_id daily weekly).1.daily_calories = some daily ∧
    (set_goals db user_id daily weekly).1.weekly_calories = some weekly ∧
    (set_goals db user_id daily weekly).1.protein_goal
      = (get_goals db user_id).bind Goal.protein_goal ∧
    (set_goals db user_id daily weekly).1.carb_goal
      = (get_goals db user_id).bind Goal.carb_goal ∧
    (set_goals db user_id daily weekly).1.fat_goal
      = (get_goals db user_id).bind Goal.fat_goal := by
  unfold set_goals
  cases haux : setGoalsAux user_id daily weekly db.goals with
  | some p =>
    obtain ⟨g1, l1⟩ := p
    obtain ⟨g0, hfind, hup, hfind1⟩ :=
      (setGoalsAux_spec user_id daily weekly db.goals).1 g1 l1 haux
    refine ⟨?_, ?_, ?_, ?_, ?_, ?_⟩
    · simpa [get_goals] using hfind1
    · rw [hup]
    · rw [hup]
    · rw [hup]
      simp [get_goals, hfind]
    · rw [hup]
      simp [get_goals, hfind]
    · rw [hup]
      simp [get_goals, hfind]
  | none =>
    have hnone := (setGoalsAux_spec user_id daily weekly db.goals).2 haux
    refine ⟨?_, rfl, rfl, ?_, ?_, ?_⟩
    · simp only [get_goals]
      rw [find?_append_of_none _ _ _ hnone]
      exact List.find?_cons_of_pos _ (by simp)
    · simp [get_goals, hnone]
    · simp [get_goals, hnone]
    · simp [get_goals, hnone]

/-- Claim C3 (confirmed): `get_progress` totals the calories of the user's
entries on the date (0 with no entries); with no goal row, or a NULL
`daily_calories`, it returns the total with goal, remaining and percentage
all absent; and on a store with a 2000-calorie goal and no entries it
returns total 0, remaining 2000, percentage 0 (`0` in two-decimal fixed
point). -/
theorem c3_total_and_absent_goal :
    (∀ (db : DB) (user_id : Nat) (d : Date),
      (get_progress db user_id d).total_calories
        = ((db.entries.filter
            (fun e => e.user_id == user_id && e.date == d)).map
              (fun e => e.calories)).sum ∧
      (get_goals db user_id = none →
        (get_progress db user_id d).daily_goal = none ∧
        (get_progress db user_id d).remaining = none ∧
        (get_progress db user_id d).progress_percentage = none) ∧
      (∀ g, get_goals db user_id = some g → g.daily_calories = none →
        (get_progress db user_id d).daily_goal = none ∧
        (get_progress db user_id d).remaining = none ∧
        (get_progress db user_id d).progress_percentage = none)) ∧
    get_progress dbNoEntries 1 7
      = { date := 7, total_calories := 0, daily_goal := some 2000,
          remaining := some 2000, progress_percentage := some 0 } := by
  constructor
  · intro db user_id d
    exact ⟨get_progress_total db user_id d,
      (get_progress_absent db user_id d).1,
      (get_progress_absent db user_id d).2⟩
  · decide

/-- Witness for C3: on a store whose `goals` table is empty, the daily
progress carries the entry total and absent goal, remaining and
percentage. -/
theorem c3_total_and_absent_goal_witness :
    (get_progress dbApple 1 5).total_calories = 95 ∧
    (get_progress dbApple 1 5).daily_goal = none ∧
    (get_progress dbApple 1 5).remaining = none ∧
    (get_progress dbApple 1 5).progress_percentage = none := by
  have h := c3_total_and_absent_goal.1 dbApple 1 5
  have habs := h.2.1 (by decide)
  refine ⟨?_, habs.1, habs.2.1, habs.2.2⟩
  rw [h.1]
  decide

/-- Counterexample to claim C1 as stated: `daily_calories = 0` is stored
("set"), yet `remaining` is absent rather than `max(0, 0 - total) = 0`,
because the source guards on Python truthiness (`if goals.daily_calories:`),
which is false at `0`. -/
theorem c1_counterexample :
    get_goals dbZeroGoal 1 = some goal0 ∧
    goal0.daily_calories = some 0 ∧
    (get_progress dbZeroGoal 1 5).total_calories = 0 ∧
    (get_progress dbZeroGoal 1 5).remaining
      ≠ some (max 0 (0 - (get_progress dbZeroGoal 1 5).total_calories)) := by
  decide

/-- Claim C1 as amended (the claim holds once "`daily_calories` set" is
strengthened to "set and nonzero", the truthiness the source tests): for a
stored nonzero `daily_calories`, `remaining = max(0, daily_calories - total)`,
and `percentage = min(100, round(total / daily_calories * 100, 2))` — in
two-decimal fixed point, `min 10000 (percentage100 total dc)` — exactly when
`daily_calories > 0`, the percentage being absent otherwise. -/
theorem c1_daily_progress_amended (db : DB) (user_id : Nat) (d : Date)
    (g : Goal) (dc : Int) (hg : get_goals db user_id = some g)
    (hd : g.daily_calories = some dc) (h0 : dc ≠ 0) :
    (get_progress db user_id d).remaining
        = some (max 0 (dc - (get_progress db user_id d).total_calories)) ∧
    (0 < dc →
      (get_progress db user_id d).progress_percentage
        = some (min 10000
            (percentage100 (get_progress db user_id d).total_calories dc))) ∧
    (¬ 0 < dc → (get_progress db user_id d).progress_percentage = none) := by
  refine ⟨?_, ?_, ?_⟩
  · simp [get_progress, hg, hd, h0]
  · intro hpos
    simp [get_progress, hg, hd, h0, hpos]
  · intro hneg
    simp [get_progress, hg, hd, h0, hneg]

/-- Witness for C1 (amended): the worked example — goal 2000, entries
200/300/1600 on the date — yields total 2100, remaining 0 and percentage
100 (`10000` in two-decimal fixed point). -/
theorem c1_daily_progress_amended_witness :
    (get_progress dbExample 1 5).total_calories = 2100 ∧
    (get_progress dbExample 1 5).remaining = some 0 ∧
    (get_progress dbExample 1 5).progress_percentage = some 10000 := by
  have h := c1_daily_progress_amended dbExample 1 5 goal2000 2000
    (by decide) (by decide) (by decide)
  refine ⟨by decide, ?_, ?_⟩
  · rw [h.1]
    decide
  · rw [h.2.1 (by decide)]
    decide

/-- Claim C6 (confirmed, under the primary-key invariant that entry ids are
distinct): `delete_entry` returns `true` exactly when a row with the given id
belongs to the given user (it is a total function, never an error on
absence), returns the store unchanged on `false`, leaves no matching row
behind, and a second call with the same arguments returns `false`. -/
theorem c6_delete_entry_idempotent (db : DB) (entry_id user_id : Nat)
    (hids : db.entries.Pairwise (fun a b => a.id ≠ b.id)) :
    ((delete_entry db entry_id user_id).1 = true ↔
      ∃ e ∈ db.entries, e.id = entry_id ∧ e.user_id = user_id) ∧
    ((delete_entry db entry_id user_id).1 = false →
      (delete_entry db entry_id user_id).2 = db) ∧
    (∀ e ∈ (delete_entry db entry_id user_id).2.entries,
      ¬(e.id = entry_id ∧ e.user_id = user_id)) ∧
    (delete_entry (delete_entry db entry_id user_id).2 entry_id user_id).1
      = false := by
  refine ⟨deleteEntryAux_fst_iff entry_id user_id db.entries, ?_, ?_, ?_⟩
  · intro h
    show { db with entries := (deleteEntryAux entry_id user_id db.entries).2 } = db
    rw [deleteEntryAux_snd_of_false entry_id user_id db.entries h]
  · exact deleteEntryAux_not_mem entry_id user_id db.entries hids
  · rw [Bool.eq_false_iff]
    intro h
    obtain ⟨e, he, hm⟩ :=
      (deleteEntryAux_fst_iff entry_id user_id
        (delete_entry db entry_id user_id).2.entries).mp h
    exact deleteEntryAux_not_mem entry_id user_id db.entries hids e he hm

/-- Witness for C6: deleting entry 1 of user 1 from the one-entry store
succeeds, removes the row, and a second identical call reports not-found. -/
theorem c6_delete_entry_idempotent_witness :
    (delete_entry dbApple 1 1).1 = true ∧
    (delete_entry dbApple 1 1).2.entries = [] ∧
    (delete_entry (delete_entry dbApple 1 1).2 1 1).1 = false := by
  have h := c6_delete_entry_idempotent dbApple 1 1 (by decide)
  exact ⟨h.1.mpr ⟨entryApple, by decide, by decide, by decide⟩, by decide,
    h.2.2.2⟩

/-- Claim C7 (confirmed, under the primary-key invariant that entry ids are
distinct): `get_recent_logs` returns at most `limit` entries, all of them the
user's own stored rows, in strictly descending (date, id) order — newest
first, ids breaking date ties. -/
theorem c7_get_recent_logs_ordered (db : DB) (user_id : Nat) (limit : Nat)
    (hids : db.entries.Pairwise (fun a b => a.id ≠ b.id)) :
    (get_recent_logs db user_id limit).length ≤ limit ∧
    (∀ e ∈ get_recent_logs db user_id limit,
      e ∈ db.entries ∧ e.user_id = user_id) ∧
    (get_recent_logs db user_id limit).Pairwise
      (fun a b => b.date < a.date ∨ (b.date = a.date ∧ b.id < a.id)) := by
  refine ⟨?_, ?_, ?_⟩
  · simp only [get_recent_logs]
    simp [List.length_take]
  · intro e he
    simp only [get_recent_logs] at he
    have h1 := List.take_subset _ _ he
    rw [List.mem_insertionSort] at h1
    have h2 := List.mem_filter.mp h1
    exact ⟨h2.1, by simpa using h2.2⟩
  · have hsorted :
        ((db.entries.filter
          (fun e => e.user_id == user_id)).insertionSort recentLe).Pairwise
          recentLe :=
      List.sorted_insertionSort recentLe _
    have hperm :=
      List.perm_insertionSort recentLe
        (db.entries.filter (fun e => e.user_id == user_id))
    have hne_fl : (db.entries.filter
        (fun e => e.user_id == user_id)).Pairwise
        (fun a b => a.id ≠ b.id) :=
      List.Pairwise.sublist (List.filter_sublist db.entries) hids
    have hne_sorted : ((db.entries.filter
        (fun e => e.user_id == user_id)).insertionSort recentLe).Pairwise
        (fun a b => a.id ≠ b.id) :=
      (hperm.pairwise_iff (fun h => h.symm)).mpr hne_fl
    have hstrict : ((db.entries.filter
        (fun e => e.user_id == user_id)).insertionSort recentLe).Pairwise
        (fun a b => b.date < a.date ∨ (b.date = a.date ∧ b.id < a.id)) :=
      (hsorted.and hne_sorted).imp
        (fun {a b} h => by
          obtain ⟨hle, hne⟩ := h
          unfold recentLe at hle
          rcases hle with h1 | ⟨h1, h2⟩
          · exact Or.inl h1
          · exact Or.inr ⟨h1, Nat.lt_of_le_of_ne h2 (fun heq => hne heq.symm)⟩)
    exact List.Pairwise.sublist (List.take_sublist limit _) hstrict

/-- Witness for C7: user 1's entries (dates 10, 12, 12; another user's row
excluded) with limit 2 give `[id 3, id 2]` — two rows, dates descending, the
date-12 tie broken by id. -/
theorem c7_get_recent_logs_ordered_witness :
    (get_recent_logs dbRecent 1 2).length ≤ 2 ∧
    (get_recent_logs dbRecent 1 2).Pairwise
      (fun a b => b.date < a.date ∨ (b.date = a.date ∧ b.id < a.id)) ∧
    get_recent_logs dbRecent 1 2 = [entryR3, entryR2] := by
  have h := c7_get_recent_logs_ordered dbRecent 1 2 (by decide)
  exact ⟨h.1, h.2.2, by decide⟩

/-- Counterexample to claim C5 as stated: updating entry 1 with a new food
name and `calories = -5` fails with the validation error, yet the store is
changed — the food name was assigned before the calorie check and is never
rolled back, so the stored row now reads "Burger". -/
theorem c5_counterexample :
    (update_entry dbApple 1 1 (some "Burger") (some (-5)) none none).1
        = .error "Calories cannot be negative" ∧
    (update_entry dbApple 1 1 (some "Burger") (some (-5)) none none).2
        ≠ dbApple ∧
    ((update_entry dbApple 1 1 (some "Burger") (some (-5)) none none).2.entries.map
        (fun e => e.food_name)) = ["Burger"] :=
  ⟨rfl, by decide, by decide⟩

/-- Claim C5 as amended: `update_entry` is a not-found no-op for an id not
owned by the user; on the first matching row it overwrites exactly the
supplied fields when the supplied calories are absent or non-negative; and a
supplied `calories < 0` fails with the validation error leaving calories,
date and meal type unchanged — but a food name supplied in the same call has
already been applied to the stored row when the error is raised (the
assignment precedes the check, and nothing is rolled back). -/
theorem c5_update_entry_amended (db : DB) (entry_id user_id : Nat)
    (food : Option String) (calories : Option Int) (meal_date : Option Date)
    (meal_type : Option String) :
    ((∀ x ∈ db.entries, ¬(x.id = entry_id ∧ x.user_id = user_id)) →
      update_entry db entry_id user_id food calories meal_date meal_type
        = (.ok none, db)) ∧
    (∀ l1 e l2, db.entries = l1 ++ e :: l2 →
      (∀ x ∈ l1, ¬(x.id = entry_id ∧ x.user_id = user_id)) →
      e.id = entry_id → e.user_id = user_id →
      (∀ c, calories = some c → c < 0 →
        update_entry db entry_id user_id food calories meal_date meal_type
          = (.error "Calories cannot be negative",
              { db with entries :=
                  l1 ++ { e with food_name := food.getD e.food_name } :: l2 })) ∧
      ((calories = none ∨ ∃ c, calories = some c ∧ 0 ≤ c) →
        update_entry db entry_id user_id food calories meal_date meal_type
          = (.ok (some (updatedEntry e food calories meal_date meal_type)),
              { db with entries :=
                  l1 ++ updatedEntry e food calories meal_date meal_type :: l2 }))) := by
  constructor
  · intro h
    unfold update_entry
    rw [updateEntryAux_no_match food calories meal_date meal_type entry_id
      user_id db.entries h]
  · intro l1 e l2 hsplit hl1 he hu
    constructor
    · intro c hc hneg
      unfold update_entry
      rw [hsplit, hc, updateEntryAux_found_error food c meal_date meal_type
        entry_id user_id l1 e l2 hl1 he hu hneg]
    · intro hok
      unfold update_entry
      rw [hsplit, updateEntryAux_found_ok food calories meal_date meal_type
        entry_id user_id l1 e l2 hl1 he hu hok]

/-- Witness for C5 (amended): on the one-entry store, the failing call
(food "Burger", calories −5) errors with the food name already applied, and
the passing call (calories 80) overwrites exactly the calorie field. -/
theorem c5_update_entry_amended_witness :
    update_entry dbApple 1 1 (some "Burger") (some (-5)) none none
      = (.error "Calories cannot be negative",
          { dbApple with entries :=
              [] ++ { entryApple with
                        food_name := (some "Burger").getD entryApple.food_name } :: [] }) ∧
    update_entry dbApple 1 1 none (some 80) none none
      = (.ok (some (updatedEntry entryApple none (some 80) none none)),
          { dbApple with entries :=
              [] ++ updatedEntry entryApple none (some 80) none none :: [] }) := by
  have h1 := (c5_update_entry_amended dbApple 1 1 (some "Burger") (some (-5))
    none none).2 [] entryApple [] rfl (by simp) rfl rfl
  have h2 := (c5_update_entry_amended dbApple 1 1 none (some 80)
    none none).2 [] entryApple [] rfl (by simp) rfl rfl
  exact ⟨h1.1 (-5) rfl (by decide), h2.2 (Or.inr ⟨80, rfl, by decide⟩)⟩

end HealthTrack
